import Mathlib

/-!
Verification of the retrieval-grounding and confidence-gating pipeline of the
`azure-rag-compliance-engine` repository (`src/function_app.py`), as a shallow
embedding in Lean 4.

Conventions of the embedding:
* machine floats of the source are modelled as exact rationals (`ℚ`);
* `datetime` timestamps are rationals measured in seconds, `timedelta(minutes=1)`
  is the rational `60`;
* Python dictionaries carrying heterogeneous response payloads become Lean
  structures with `Option` fields for keys present in only some branches;
* a Python function that may `raise` is modelled with `Except`/`Option`;
* the external collaborators (embedding model, search index, chat model) are
  oracle parameters, and calls to them are recorded as `CallEvent`s;
* `hashlib.sha256(...).hexdigest()` is modelled by a full executable SHA-256
  over the UTF-8 bytes of the input string.
-/

namespace RagApp

/-! ## SHA-256 (model of `hashlib.sha256(question.encode()).hexdigest()`) -/

/-- Truncation to a 32-bit word. -/
def w32 (n : Nat) : Nat := n % 2 ^ 32

/-- Addition on 32-bit words. -/
def add32 (a b : Nat) : Nat := (a + b) % 2 ^ 32

/-- Right rotation on 32-bit words. -/
def rotr32 (x k : Nat) : Nat := ((x >>> k) ||| (x <<< (32 - k))) % 2 ^ 32

/-- Bitwise complement on 32-bit words. -/
def not32 (x : Nat) : Nat := x ^^^ 0xffffffff

/-- The SHA-256 round constants (first 32 bits of the fractional parts of the
cube roots of the first 64 primes). -/
def shaK : List Nat :=
  [1116352408, 1899447441, 3049323471, 3921009573, 961987163,
   1508970993, 2453635748, 2870763221, 3624381080, 310598401,
   607225278, 1426881987, 1925078388, 2162078206, 2614888103,
   3248222580, 3835390401, 4022224774, 264347078, 604807628,
   770255983, 1249150122, 1555081692, 1996064986, 2554220882,
   2821834349, 2952996808, 3210313671, 3336571891, 3584528711,
   113926993, 338241895, 666307205, 773529912, 1294757372,
   1396182291, 1695183700, 1986661051, 2177026350, 2456956037,
   2730485921, 2820302411, 3259730800, 3345764771, 3516065817,
   3600352804, 4094571909, 275423344, 430227734, 506948616,
   659060556, 883997877, 958139571, 1322822218, 1537002063,
   1747873779, 1955562222, 2024104815, 2227730452, 2361852424,
   2428436474, 2756734187, 3204031479, 3329325298]

/-- The eight 32-bit working registers of the SHA-256 compression function. -/
structure Hash8 where
  a : Nat
  b : Nat
  c : Nat
  d : Nat
  e : Nat
  f : Nat
  g : Nat
  h : Nat
deriving Repr, DecidableEq

/-- The SHA-256 initial hash value. -/
def shaInit : Hash8 :=
  ⟨1779033703, 3144134277, 1013904242, 2773480762,
   1359893119, 2600822924, 528734635, 1541459225⟩

/-- One round of the SHA-256 compression function. -/
def shaRound (st : Hash8) (k w : Nat) : Hash8 :=
  let s1 := rotr32 st.e 6 ^^^ rotr32 st.e 11 ^^^ rotr32 st.e 25
  let ch := (st.e &&& st.f) ^^^ (not32 st.e &&& st.g)
  let temp1 := (st.h + s1 + ch + k + w) % 2 ^ 32
  let s0 := rotr32 st.a 2 ^^^ rotr32 st.a 13 ^^^ rotr32 st.a 22
  let maj := (st.a &&& st.b) ^^^ (st.a &&& st.c) ^^^ (st.b &&& st.c)
  let temp2 := (s0 + maj) % 2 ^ 32
  ⟨(temp1 + temp2) % 2 ^ 32, st.a, st.b, st.c, (st.d + temp1) % 2 ^ 32, st.e, st.f, st.g⟩

/-- Extend the sixteen 32-bit words of one block to the 64-entry message
schedule. -/
def shaSchedule (block : List Nat) : List Nat :=
  (List.range 48).foldl
    (fun ws i =>
      let x := ws.getD (i + 1) 0
      let y := ws.getD (i + 14) 0
      let s0 := rotr32 x 7 ^^^ rotr32 x 18 ^^^ (x >>> 3)
      let s1 := rotr32 y 17 ^^^ rotr32 y 19 ^^^ (y >>> 10)
      ws ++ [(ws.getD i 0 + s0 + ws.getD (i + 9) 0 + s1) % 2 ^ 32])
    block

/-- Interpret 64 bytes as sixteen big-endian 32-bit words. -/
def shaWords (block : List Nat) : List Nat :=
  (List.range 16).map fun i =>
    block.getD (4 * i) 0 * 2 ^ 24 + block.getD (4 * i + 1) 0 * 2 ^ 16 +
      block.getD (4 * i + 2) 0 * 2 ^ 8 + block.getD (4 * i + 3) 0

/-- Compress one 64-byte block into the running hash state. -/
def shaCompress (H : Hash8) (block : List Nat) : Hash8 :=
  let ws := shaSchedule (shaWords block)
  let st := (shaK.zip ws).foldl (fun s kw => shaRound s kw.1 kw.2) H
  ⟨add32 H.a st.a, add32 H.b st.b, add32 H.c st.c, add32 H.d st.d,
   add32 H.e st.e, add32 H.f st.f, add32 H.g st.g, add32 H.h st.h⟩

/-- SHA-256 padding of a byte message: a `0x80` byte, zeros to 56 mod 64, and
the bit length as eight big-endian bytes. -/
def shaPad (msg : List Nat) : List Nat :=
  let L := msg.length
  let zeros := (119 - L % 64) % 64
  msg ++ [0x80] ++ List.replicate zeros 0 ++
    ((List.range 8).map fun i => (((8 * L) % 2 ^ 64) >>> (56 - 8 * i)) % 256)

/-- Split a byte list into 64-byte chunks. -/
def chunks64 (l : List Nat) : List (List Nat) :=
  if l.isEmpty then [] else l.take 64 :: chunks64 (l.drop 64)
termination_by l.length
decreasing_by
  simp only [List.length_drop]
  have : l.length ≠ 0 := by
    simpa [List.isEmpty_iff_length_eq_zero] using (by assumption : ¬l.isEmpty = true)
  omega

/-- SHA-256 of a byte message. -/
def sha256bytes (msg : List Nat) : Hash8 :=
  (chunks64 (shaPad msg)).foldl shaCompress shaInit

/-- Lower-case hexadecimal digit. -/
def hexChar (n : Nat) : Char :=
  if n < 10 then Char.ofNat (48 + n) else Char.ofNat (87 + n)

/-- Exactly eight hexadecimal characters of a 32-bit word. -/
def hex8 (n : Nat) : List Char :=
  (List.range 8).map fun i => hexChar ((n >>> (28 - 4 * i)) % 16)

/-- The UTF-8 bytes of a string. -/
def strBytes (s : String) : List Nat :=
  (s.toList.flatMap String.utf8EncodeChar).map UInt8.toNat

/-- The 64 hex characters of `hashlib.sha256(s.encode()).hexdigest()`. -/
def sha256hexChars (s : String) : List Char :=
  let d := sha256bytes (strBytes s)
  hex8 d.a ++ hex8 d.b ++ hex8 d.c ++ hex8 d.d ++ hex8 d.e ++ hex8 d.f ++ hex8 d.g ++ hex8 d.h

/-- The digest `hashlib.sha256(s.encode()).hexdigest()` as a string. -/
def sha256hex (s : String) : String :=
  String.mk (sha256hexChars s)

/-! ## Data model of the RAG engine (`RAGEngine` in `src/function_app.py`) -/

/-- One raw hit returned by the Azure AI Search collaborator: the fields the
code projects (`content`, `source_file`, `page_number`, `compliance_level`)
plus the normalized relevance score `@search.score`. -/
structure SearchResult where
  content : String
  source_file : String
  page_number : Nat
  compliance_level : String
  score : ℚ
deriving Repr, DecidableEq

/-- One element of `relevant_docs` as built by `RAGEngine.search_documents`. -/
structure EvidenceItem where
  content : String
  source : String
  page : Nat
  compliance : String
  relevance_score : ℚ
deriving Repr, DecidableEq

/-- The threshold `self.min_relevance_score = 0.75` set in `RAGEngine.__init__`. -/
def min_relevance_score : ℚ := 3 / 4

/-- The dict built from a kept search hit in `RAGEngine.search_documents`. -/
def toEvidence (r : SearchResult) : EvidenceItem :=
  { content := r.content, source := r.source_file, page := r.page_number,
    compliance := r.compliance_level, relevance_score := r.score }

/-- The filtering loop of `RAGEngine.search_documents`: a hit is appended to
`relevant_docs` exactly when `score >= self.min_relevance_score`. -/
def filter_relevant (results : List SearchResult) : List EvidenceItem :=
  results.filterMap fun r =>
    if min_relevance_score ≤ r.score then some (toEvidence r) else none

/-- A call to one of the three external collaborators. -/
inductive CallEvent where
  | embedCall
  | searchCall
  | llmCall
deriving Repr, DecidableEq

/-- The external collaborators, as oracles: `embeddings.embed_query`,
`search_client.search` and `llm.invoke`.  An `Except.error` models the
collaborator raising. -/
structure Oracles where
  embed : String → Except String (List ℚ)
  searchQ : String → List ℚ → Except String (List SearchResult)
  llm : String → Except String String

/-- Model of `RAGEngine.search_documents`: embed the question, query the search index,
and keep only hits clearing the relevance threshold.  Both collaborator errors
propagate (`raise`).  The second component records the collaborator calls
made. -/
def search_documents (ol : Oracles) (question : String) :
    Except String (List EvidenceItem) × List CallEvent :=
  match ol.embed question with
  | .error e => (.error e, [.embedCall])
  | .ok vec =>
    match ol.searchQ question vec with
    | .error e => (.error e, [.embedCall, .searchCall])
    | .ok results => (.ok (filter_relevant results), [.embedCall, .searchCall])

/-- The response dict of `RAGEngine.generate_answer`.  Keys present in only
one branch are `Option`s (`confidence_score` holds the exact mean that the
code formats as a percentage string; `documents_used` and `warning` likewise
mirror the dict keys of the two branches). -/
structure AnswerDict where
  answer : String
  sources : List String
  confidence : String
  confidence_score : Option ℚ
  documents_used : Option Nat
  warning : Option String
deriving Repr, DecidableEq

/-- The audit dict assembled by `RAGEngine._log_audit`: note it carries
`question_hash` (the first 16 hex characters of the SHA-256 of the question)
and no raw question field. -/
structure AuditEntry where
  timestamp : String
  client_ip : String
  question_hash : String
  sources : List String
  confidence : ℚ
deriving Repr, DecidableEq

/-- Model of `RAGEngine._log_audit`. -/
def log_audit (client_ip question : String) (sources : List String)
    (confidence : ℚ) (nowIso : String) : AuditEntry :=
  { timestamp := nowIso, client_ip := client_ip,
    question_hash := String.mk ((sha256hexChars question).take 16),
    sources := sources, confidence := confidence }

/-- The context block of `RAGEngine.generate_answer`. -/
def build_context (docs : List EvidenceItem) : String :=
  String.intercalate "\n\n---\n\n"
    (docs.map fun doc =>
      "Documento: " ++ doc.source ++ " (Página " ++ toString doc.page ++ ")\n" ++ doc.content)

/-- The system prompt of `RAGEngine.generate_answer`. -/
def build_prompt (context question : String) : String :=
  "Você é um assistente de auditoria técnica especializado em compliance.\n\n" ++
  "INSTRUÇÕES CRÍTICAS:\n" ++
  "1. Responda APENAS com base no contexto fornecido abaixo\n" ++
  "2. Se a informação não estiver no contexto, diga explicitamente \"não encontrei essa informação nos documentos\"\n" ++
  "3. NUNCA invente ou especule informações\n" ++
  "4. Cite especificamente qual documento suporta cada afirmação\n" ++
  "5. Use linguagem técnica precisa\n" ++
  "6. Mantenha respostas objetivas e concisas (máximo 3 parágrafos)\n\n" ++
  "CONTEXTO DOS DOCUMENTOS APROVADOS:\n" ++ context ++
  "\n\nPERGUNTA: " ++ question ++
  "\n\nRESPOSTA (baseada APENAS no contexto acima):"

/-- The deduplicated `sources` list of `RAGEngine.generate_answer`
(`list(set(...))`; the set's iteration order is not specified, we keep first
occurrences). -/
def build_sources (docs : List EvidenceItem) : List String :=
  (docs.map fun doc => doc.source ++ " (p. " ++ toString doc.page ++ ")").dedup

/-- The fixed insufficient-information message of the empty-evidence branch. -/
def insufficientMsg : String :=
  "Não encontrei informações confiáveis nos documentos aprovados para responder esta pergunta."

/-- The mean `avg_confidence = sum(doc['relevance_score'] for doc in docs) / len(docs)`
in `RAGEngine.generate_answer`. -/
def mean_relevance (docs : List EvidenceItem) : ℚ :=
  (docs.map fun doc => doc.relevance_score).sum / (docs.length : ℚ)

/-- Outcome of `RAGEngine.generate_answer`: its return value or the exception
it re-raises, the audit entries it logged, and the generative calls it made. -/
structure GenResult where
  result : Except String AnswerDict
  audits : List AuditEntry
  events : List CallEvent
deriving Repr

/-- Model of `RAGEngine.generate_answer`.  The empty-evidence branch returns a fixed
answer without touching the generative collaborator; otherwise the prompt is
built and the collaborator invoked.  On collaborator success the mean
relevance is computed, the confidence label derived, and one audit entry
logged; on collaborator failure the exception is re-raised (`except ...:
raise`). -/
def generate_answer (llm : String → Except String String) (question : String)
    (docs : List EvidenceItem) (client_ip : String) (nowIso : String) : GenResult :=
  if docs.isEmpty then
    { result := .ok
        { answer := insufficientMsg, sources := [], confidence := "BAIXA",
          confidence_score := none, documents_used := none,
          warning := some "Resposta baseada em dados insuficientes" },
      audits := [], events := [] }
  else
    let prompt := build_prompt (build_context docs) question
    match llm prompt with
    | .error e => { result := .error e, audits := [], events := [.llmCall] }
    | .ok answer =>
      let avg := mean_relevance docs
      let level := if 9 / 10 ≤ avg then "ALTA" else if 3 / 4 ≤ avg then "MÉDIA" else "BAIXA"
      { result := .ok
          { answer := answer, sources := build_sources docs, confidence := level,
            confidence_score := some avg, documents_used := some docs.length,
            warning := none },
        audits := [log_audit client_ip question (docs.map fun doc => doc.source) avg nowIso],
        events := [.llmCall] }

/-! ## Input validation (`InputValidator.validate_question`) -/

/-- The whitespace characters stripped by Python's `str.strip()` (restricted
to the ASCII ones; the questions handled by this app are covered). -/
def isPySpace (c : Char) : Bool :=
  c = ' ' || c = '\t' || c = '\n' || c = '\r' || c = '\x0b' || c = '\x0c'

/-- Python `str.strip()` on a character list: drop whitespace from both
ends. -/
def pyStripList (l : List Char) : List Char :=
  ((l.dropWhile isPySpace).reverse.dropWhile isPySpace).reverse

/-- Python `str.strip()`. -/
def pyStrip (s : String) : String :=
  String.mk (pyStripList s.toList)

/-- Python `str.lower()` (ASCII case mapping, which covers the denylist
patterns). -/
def pyLower (s : String) : String :=
  String.mk (s.toList.map Char.toLower)

/-- Python `pattern in haystack` on character lists (substring containment). -/
def containsSub (pat : List Char) : List Char → Bool
  | [] => pat.isPrefixOf []
  | c :: rest => pat.isPrefixOf (c :: rest) || containsSub pat rest

/-- The fixed denylist `suspicious_patterns` of `validate_question`. -/
def suspicious_patterns : List String :=
  ["<script", "javascript:", "onerror=", "<?php", "eval("]

/-- Python `any(pattern in sanitized.lower() for pattern in suspicious_patterns)`. -/
def hasSuspicious (sanitized : String) : Bool :=
  suspicious_patterns.any fun pat => containsSub pat.toList (pyLower sanitized).toList

/-- Model of `InputValidator.validate_question`: returns
`(is_valid, sanitized_question, error_message)`.  The checks run in source
order: emptiness, trim, minimum length 5, maximum length 1000, at least 3
alphanumeric characters, injection denylist.  (The `isinstance` check cannot
fail in the typed embedding.) -/
def validate_question (question : String) : Bool × String × String :=
  if question = "" then (false, "", "Pergunta não pode ser vazia")
  else
    let sanitized := pyStrip question
    if sanitized.length < 5 then (false, "", "Pergunta muito curta (mínimo 5 caracteres)")
    else if 1000 < sanitized.length then (false, "", "Pergunta muito longa (máximo 1000 caracteres)")
    else if sanitized.toList.countP (fun c => c.isAlphanum) < 3 then
      (false, "", "Pergunta deve conter pelo menos 3 caracteres alfanuméricos")
    else if hasSuspicious sanitized then (false, "", "Pergunta contém conteúdo suspeito")
    else (true, sanitized, "")

/-! ## Rate limiter (`SimpleRateLimiter`) -/

/-- The state of `SimpleRateLimiter`: capacity, window length in seconds, and
the per-client timestamp lists (`defaultdict(list)` becomes a total function
defaulting to `[]`). -/
structure RateLimiter where
  max_requests : Nat
  window : ℚ
  requests : String → List ℚ

/-- Point update of the per-client map. -/
def updReq (f : String → List ℚ) (k : String) (v : List ℚ) : String → List ℚ :=
  fun x => if x = k then v else f x

/-- Model of `SimpleRateLimiter.is_allowed`.  Returns the decision — `some (true, 0)`
for allowed, `some (false, retry)` for denied with the exact
`retry_after` seconds the code formats into its message — together with the
updated state.  `none` models the `ValueError` that `min([])` would raise
(reachable only with capacity 0). -/
def is_allowed (st : RateLimiter) (client_id : String) (now : ℚ) :
    Option (Bool × ℚ) × RateLimiter :=
  let kept := (st.requests client_id).filter fun t => now - t < st.window
  if st.max_requests ≤ kept.length then
    match kept.min? with
    | none => (none, { st with requests := updReq st.requests client_id kept })
    | some oldest =>
      (some (false, oldest + st.window - now),
       { st with requests := updReq st.requests client_id kept })
  else
    (some (true, 0), { st with requests := updReq st.requests client_id (kept ++ [now]) })

/-- A sequence of admission checks for one client at the given times. -/
def callSeq (st : RateLimiter) (client_id : String) :
    List ℚ → List (Option (Bool × ℚ)) × RateLimiter
  | [] => ([], st)
  | t :: ts =>
    let step := is_allowed st client_id t
    let rest := callSeq step.2 client_id ts
    (step.1 :: rest.1, rest.2)

/-- Recognizes an allowed admission result. -/
def isAllowRes (r : Option (Bool × ℚ)) : Bool :=
  match r with
  | some (true, _) => true
  | _ => false

/-- Recognizes a denied admission result. -/
def isDenyRes (r : Option (Bool × ℚ)) : Bool :=
  match r with
  | some (false, _) => true
  | _ => false

/-! ## HTTP orchestrator (`ask_compliance`) -/

/-- The JSON body tag of each `func.HttpResponse` the endpoint can build. -/
inductive RespBody where
  | rateLimited (retry_after : ℚ)
  | invalidJson
  | validationError (msg : String)
  | searchError
  | genError
  | success (ans : AnswerDict)
  | internalError
deriving Repr

/-- The observable outcome of one request: HTTP status and body, collaborator
calls made, audit entries logged, and the rate limiter state left behind. -/
structure ReqOutcome where
  status : Nat
  body : RespBody
  events : List CallEvent
  audits : List AuditEntry
  limiter : RateLimiter

/-- Model of `ask_compliance`.  Here `jsonQuestion = none` models a body whose JSON parse
raises `ValueError`; `some q` models `req_body.get('question', '')` returning
`q`.  The steps run in source order: rate limiting (429), JSON parse (400),
validation (400), document search (503 on collaborator error), answer
generation (500 on collaborator error), 200 with the result.  The `none`
admission outcome (unreachable for capacity ≥ 1) falls into the outer
`except` → 500. -/
def ask_compliance (st : RateLimiter) (ol : Oracles) (client_ip : String)
    (jsonQuestion : Option String) (now : ℚ) (nowIso : String) : ReqOutcome :=
  match is_allowed st client_ip now with
  | (none, st') => ⟨500, .internalError, [], [], st'⟩
  | (some (false, retry), st') => ⟨429, .rateLimited retry, [], [], st'⟩
  | (some (true, _), st') =>
    match jsonQuestion with
    | none => ⟨400, .invalidJson, [], [], st'⟩
    | some question =>
      match validate_question question with
      | (false, _, msg) => ⟨400, .validationError msg, [], [], st'⟩
      | (true, sanitized, _) =>
        match search_documents ol sanitized with
        | (.error _, evs) => ⟨503, .searchError, evs, [], st'⟩
        | (.ok docs, evs) =>
          let gen := generate_answer ol.llm sanitized docs client_ip nowIso
          match gen.result with
          | .error _ => ⟨500, .genError, evs ++ gen.events, gen.audits, st'⟩
          | .ok ans => ⟨200, .success ans, evs ++ gen.events, gen.audits, st'⟩

/-! ## Concrete fixtures used by claim witnesses and counterexamples -/

/-- A generative collaborator that always answers. -/
def llmOkConst : String → Except String String := fun _ => .ok "resposta gerada"

/-- A generative collaborator that always raises (quota/timeout). -/
def llmFailConst : String → Except String String := fun _ => .error "quota"

/-- An evidence item with relevance exactly at the HIGH boundary. -/
def docHigh : EvidenceItem :=
  { content := "A política exige senhas de 12 caracteres.", source := "politica.pdf",
    page := 3, compliance := "HIGH", relevance_score := 9 / 10 }

/-- An evidence item with relevance exactly at the MEDIUM boundary. -/
def docMed : EvidenceItem :=
  { content := "Acesso é revisado trimestralmente.", source := "acesso.pdf",
    page := 1, compliance := "HIGH", relevance_score := 3 / 4 }

/-- A search hit above the relevance threshold. -/
def hitHigh : SearchResult :=
  { content := "A política exige senhas de 12 caracteres.", source_file := "politica.pdf",
    page_number := 3, compliance_level := "HIGH", score := 9 / 10 }

/-- A search hit below the relevance threshold. -/
def hitLow : SearchResult :=
  { content := "Texto irrelevante.", source_file := "outro.pdf",
    page_number := 7, compliance_level := "LOW", score := 1 / 2 }

/-- Oracles whose search succeeds with one strong and one weak hit and whose
generative collaborator answers. -/
def oraclesOk : Oracles :=
  { embed := fun _ => .ok [], searchQ := fun _ _ => .ok [hitHigh, hitLow], llm := llmOkConst }

/-- Oracles whose search succeeds with one strong hit and whose generative
collaborator raises. -/
def oraclesFailGen : Oracles :=
  { embed := fun _ => .ok [], searchQ := fun _ _ => .ok [hitHigh], llm := llmFailConst }

/-- A fresh rate limiter with the deployed configuration (10 per minute). -/
def limiter10 : RateLimiter := { max_requests := 10, window := 60, requests := fun _ => [] }

/-- A fresh rate limiter with capacity 2 (for short admission sequences). -/
def limiter2 : RateLimiter := { max_requests := 2, window := 60, requests := fun _ => [] }

/-- A capacity-1 limiter that has already recorded one request at time 0. -/
def limiterFull : RateLimiter :=
  { max_requests := 1, window := 60, requests := fun _ => [0] }

/-! ## Helper lemmas -/

/-- The hex digest of the modelled SHA-256 always has 64 characters. -/
theorem sha256hexChars_length (s : String) : (sha256hexChars s).length = 64 := by
  simp [sha256hexChars, hex8]

/-- Point update at the updated key returns the new value. -/
theorem updReq_self (f : String → List ℚ) (k : String) (v : List ℚ) :
    updReq f k v k = v := by
  simp [updReq]

/-- A fresh-window step: if every recorded timestamp is within the window of
`now`, the pruning step keeps the whole list. -/
theorem filter_window_eq_self (l : List ℚ) (W now : ℚ) (hall : ∀ p ∈ l, now - p < W) :
    (l.filter fun t => now - t < W) = l :=
  List.filter_eq_self.mpr fun p hp => decide_eq_true (hall p hp)

/-- Evaluation of one denied admission check when the stored list survives
pruning and is over capacity. -/
theorem is_allowed_deny_eq (st : RateLimiter) (c : String) (now m : ℚ)
    (hkept : ((st.requests c).filter fun t => now - t < st.window) = st.requests c)
    (hc : st.max_requests ≤ (st.requests c).length)
    (hm : (st.requests c).min? = some m) :
    is_allowed st c now =
      (some (false, m + st.window - now),
       { st with requests := updReq st.requests c (st.requests c) }) := by
  unfold is_allowed
  dsimp only
  rw [hkept, if_pos hc, hm]

/-- Evaluation of one allowed admission check when the stored list survives
pruning and is under capacity. -/
theorem is_allowed_allow_eq (st : RateLimiter) (c : String) (now : ℚ)
    (hkept : ((st.requests c).filter fun t => now - t < st.window) = st.requests c)
    (hc : ¬ st.max_requests ≤ (st.requests c).length) :
    is_allowed st c now =
      (some (true, 0),
       { st with requests := updReq st.requests c (st.requests c ++ [now]) }) := by
  unfold is_allowed
  dsimp only
  rw [hkept, if_neg hc]

/-- Counting allowed and denied decisions over a call sequence whose times all
fall inside one window of each other and of the pre-existing entries: the
allowed count is capped at the remaining capacity. -/
theorem callSeq_counts (c : String) :
    ∀ (ts : List ℚ) (st : RateLimiter),
      0 < st.max_requests →
      (∀ p ∈ st.requests c, ∀ t ∈ ts, t - p < st.window) →
      ts.Pairwise (fun a b => b - a < st.window) →
      (callSeq st c ts).1.countP isAllowRes
          = min ts.length (st.max_requests - (st.requests c).length) ∧
      (callSeq st c ts).1.countP isDenyRes
          = ts.length - min ts.length (st.max_requests - (st.requests c).length) := by
  intro ts
  induction ts with
  | nil =>
    intro st hN hW hP
    simp [callSeq]
  | cons t ts ih =>
    intro st hN hW hP
    have hkept : ((st.requests c).filter fun p => t - p < st.window) = st.requests c :=
      filter_window_eq_self _ _ _ fun p hp => hW p hp t (List.mem_cons_self t ts)
    obtain ⟨hPt, hPts⟩ := List.pairwise_cons.mp hP
    by_cases hc : st.max_requests ≤ (st.requests c).length
    · -- denied: the stored list is unchanged
      have hne : st.requests c ≠ [] := by
        intro h
        rw [h] at hc
        simp at hc
        omega
      obtain ⟨m, hm⟩ : ∃ m, (st.requests c).min? = some m := by
        cases h : (st.requests c).min? with
        | none => exact absurd (List.min?_eq_none_iff.mp h) hne
        | some m => exact ⟨m, rfl⟩
      have hstep := is_allowed_deny_eq st c t m hkept hc hm
      have hreq : (updReq st.requests c (st.requests c)) c = st.requests c := updReq_self _ _ _
      have ihs := ih { st with requests := updReq st.requests c (st.requests c) }
        (by simpa using hN)
        (by
          intro p hp t' ht'
          dsimp only at hp ⊢
          rw [hreq] at hp
          exact hW p hp t' (List.mem_cons_of_mem t ht'))
        hPts
      simp only [hreq] at ihs
      simp only [callSeq, hstep]
      simp [List.countP_cons, isAllowRes, isDenyRes, ihs.1, ihs.2, List.length_cons]
      omega
    · -- allowed: `t` is appended to the stored list
      have hstep := is_allowed_allow_eq st c t hkept hc
      have hreq : (updReq st.requests c (st.requests c ++ [t])) c
          = st.requests c ++ [t] := updReq_self _ _ _
      have ihs := ih { st with requests := updReq st.requests c (st.requests c ++ [t]) }
        (by simpa using hN)
        (by
          intro p hp t' ht'
          dsimp only at hp ⊢
          rw [hreq] at hp
          rcases List.mem_append.mp hp with hp | hp
          · exact hW p hp t' (List.mem_cons_of_mem t ht')
          · rw [List.mem_singleton.mp hp]
            exact hPt t' ht')
        hPts
      simp only [hreq, List.length_append, List.length_singleton] at ihs
      simp only [callSeq, hstep]
      simp [List.countP_cons, isAllowRes, isDenyRes, ihs.1, ihs.2, List.length_cons]
      omega

/-- First admission check for an unseen client is always allowed (capacity
at least 1). -/
theorem first_call_allowed (st : RateLimiter) (c : String) (now : ℚ)
    (hN : 0 < st.max_requests) (hf : st.requests c = []) :
    (is_allowed st c now).1 = some (true, 0) := by
  unfold is_allowed
  dsimp only
  rw [hf]
  simp only [List.filter_nil, List.length_nil]
  rw [if_neg (by omega)]

/-- Every denial reports the exact time until the oldest retained timestamp
exits the window, and that time is positive. -/
theorem deny_retry_after (st : RateLimiter) (c : String) (now r : ℚ)
    (hd : (is_allowed st c now).1 = some (false, r)) :
    ∃ oldest, ((st.requests c).filter fun t => now - t < st.window).min? = some oldest ∧
      r = oldest + st.window - now ∧ 0 ≤ r := by
  unfold is_allowed at hd
  dsimp only at hd
  by_cases hc : st.max_requests ≤
      ((st.requests c).filter fun t => now - t < st.window).length
  · rw [if_pos hc] at hd
    cases hm : ((st.requests c).filter fun t => now - t < st.window).min? with
    | none => rw [hm] at hd; exact Option.noConfusion hd
    | some m =>
      rw [hm] at hd
      simp only [Option.some.injEq, Prod.mk.injEq] at hd
      refine ⟨m, rfl, hd.2.symm, ?_⟩
      have hmem : m ∈ (st.requests c).filter fun t => now - t < st.window :=
        List.min?_mem (fun a b => min_choice a b) hm
      have hwin : now - m < st.window := by
        have := (List.mem_filter.mp hmem).2
        exact of_decide_eq_true this
      rw [← hd.2]
      linarith
  · rw [if_neg hc] at hd
    simp at hd

/-- Evaluation of alphanumeric-ness on the ASCII letters handled by
`Char.toLower`. -/
theorem ofNat_shift_alnum (n : Nat) (h1 : 65 ≤ n) (h2 : n ≤ 90) :
    (Char.ofNat (n + 32)).isAlphanum = true ∧ (Char.ofNat n).isAlphanum = true := by
  interval_cases n <;> exact ⟨by decide, by decide⟩

/-- Lower-casing a character preserves `isAlphanum`. -/
theorem toLower_isAlphanum (c : Char) : c.toLower.isAlphanum = c.isAlphanum := by
  unfold Char.toLower
  dsimp only
  split
  · next h =>
    have hb := ofNat_shift_alnum c.toNat h.1 h.2
    rw [hb.1]
    have h2 := hb.2
    rw [Char.ofNat_toNat] at h2
    exact h2.symm
  · rfl

/-- Lower-casing a text does not change its alphanumeric-character count. -/
theorem countP_alnum_map_toLower (l : List Char) :
    (l.map Char.toLower).countP (fun c => c.isAlphanum)
      = l.countP (fun c => c.isAlphanum) := by
  rw [List.countP_map]
  exact List.countP_congr fun c _ => by
    simp only [Function.comp_apply, toLower_isAlphanum]

/-- The executable substring test agrees with list-infix containment. -/
theorem containsSub_correct (pat l : List Char) :
    containsSub pat l = true ↔ pat <:+: l := by
  induction l with
  | nil =>
    simp [containsSub, List.isPrefixOf_iff_prefix]
  | cons c rest ih =>
    simp [containsSub, List.isPrefixOf_iff_prefix, ih, List.infix_cons_iff,
      Bool.or_eq_true]

/-- A text containing any of the denylisted patterns (after lower-casing) has
at least 5 characters and at least 3 alphanumeric characters, so the earlier
length/content checks of `validate_question` cannot fire first. -/
theorem suspicious_bounds (s : String) (h : hasSuspicious s = true) :
    5 ≤ s.length ∧ 3 ≤ s.toList.countP (fun c => c.isAlphanum) := by
  obtain ⟨pat, hmem, hsub⟩ := List.any_eq_true.mp h
  rw [containsSub_correct] at hsub
  have hsl : List.Sublist pat.toList (pyLower s).toList := hsub.sublist
  have hlen : pat.toList.length ≤ (pyLower s).toList.length := hsl.length_le
  have hcnt : pat.toList.countP (fun c => c.isAlphanum)
      ≤ (pyLower s).toList.countP (fun c => c.isAlphanum) :=
    hsl.countP_le (fun c => c.isAlphanum)
  have hmap : (pyLower s).toList = s.toList.map Char.toLower := rfl
  rw [hmap, List.length_map] at hlen
  rw [hmap, countP_alnum_map_toLower] at hcnt
  have hsl2 : s.length = s.toList.length := rfl
  rw [hsl2]
  fin_cases hmem <;> exact ⟨le_trans (by decide) hlen, le_trans (by decide) hcnt⟩

/-- Idempotence of `dropWhile`. -/
theorem dropWhile_idem (p : Char → Bool) (l : List Char) :
    (l.dropWhile p).dropWhile p = l.dropWhile p := by
  induction l with
  | nil => rfl
  | cons c rest ih =>
    by_cases h : p c
    · simp [List.dropWhile_cons, h, ih]
    · simp [List.dropWhile_cons, h]

/-- After stripping both ends, the left end needs no further stripping. -/
theorem lstrip_after_strip (p : Char → Bool) (l : List Char) :
    (((l.dropWhile p).reverse.dropWhile p).reverse).dropWhile p
      = ((l.dropWhile p).reverse.dropWhile p).reverse := by
  cases he : ((l.dropWhile p).reverse.dropWhile p).reverse with
  | nil => rfl
  | cons x xs =>
    have hpre : ((l.dropWhile p).reverse.dropWhile p).reverse <+: l.dropWhile p := by
      have h := List.reverse_prefix.mpr
        (List.dropWhile_suffix (l := (l.dropWhile p).reverse) p)
      rwa [List.reverse_reverse] at h
    rw [he] at hpre
    have hne : (x :: xs : List Char) ≠ [] := List.cons_ne_nil x xs
    have hhead := hpre.head hne
    simp only [List.head_cons] at hhead
    have hfail : p x = false := by
      rw [hhead]
      exact List.head_dropWhile_not p l (hpre.ne_nil hne)
    rw [List.dropWhile_cons_of_neg (by simp [hfail])]

/-- Python's `strip` is idempotent (list form). -/
theorem pyStripList_idem (l : List Char) :
    pyStripList (pyStripList l) = pyStripList l := by
  unfold pyStripList
  rw [lstrip_after_strip isPySpace l, List.reverse_reverse, dropWhile_idem]

/-- Python's `strip` is idempotent. -/
theorem pyStrip_idem (s : String) : pyStrip (pyStrip s) = pyStrip s := by
  unfold pyStrip
  show String.mk (pyStripList (pyStripList s.toList)) = String.mk (pyStripList s.toList)
  rw [pyStripList_idem]

/-! ## Claim theorems -/

/-- C3: membership in the retrieved evidence set is characterized by clearing
the configured minimum-relevance threshold — a candidate is kept iff its score
is at least the threshold — and on every successful retrieval no item below
the threshold is returned. -/
theorem C3_threshold_gate :
    (∀ (results : List SearchResult) (e : EvidenceItem),
       e ∈ filter_relevant results ↔
         ∃ r ∈ results, min_relevance_score ≤ r.score ∧ e = toEvidence r) ∧
    (∀ (ol : Oracles) (q : String) (docs : List EvidenceItem),
       (search_documents ol q).1 = .ok docs →
         ∀ e ∈ docs, min_relevance_score ≤ e.relevance_score) := by
  have key : ∀ (results : List SearchResult) (e : EvidenceItem),
      e ∈ filter_relevant results ↔
        ∃ r ∈ results, min_relevance_score ≤ r.score ∧ e = toEvidence r := by
    intro results e
    simp only [filter_relevant, List.mem_filterMap]
    constructor
    · rintro ⟨r, hr, hf⟩
      by_cases hs : min_relevance_score ≤ r.score
      · rw [if_pos hs] at hf
        exact ⟨r, hr, hs, (Option.some.inj hf).symm⟩
      · rw [if_neg hs] at hf; cases hf
    · rintro ⟨r, hr, hs, rfl⟩
      exact ⟨r, hr, by rw [if_pos hs]⟩
  refine ⟨key, ?_⟩
  intro ol q docs hok e he
  unfold search_documents at hok
  cases hembed : ol.embed q with
  | error err =>
    simp only [hembed] at hok
    exact Except.noConfusion hok
  | ok vec =>
    simp only [hembed] at hok
    cases hsearch : ol.searchQ q vec with
    | error err =>
      simp only [hsearch] at hok
      exact Except.noConfusion hok
    | ok results =>
      simp only [hsearch, Except.ok.injEq] at hok
      subst hok
      obtain ⟨r, -, hs, rfl⟩ := (key results e).mp he
      simpa [toEvidence] using hs

/-- C3 witness: on a concrete retrieval with hits at scores 0.9 and 0.5 and
threshold 0.75, the strong hit is returned and clears the threshold. -/
theorem C3_witness :
    min_relevance_score ≤ (toEvidence hitHigh).relevance_score :=
  C3_threshold_gate.2 oraclesOk "Qual é a política de senhas?"
    (filter_relevant [hitHigh, hitLow]) rfl (toEvidence hitHigh)
    (by norm_num [filter_relevant, List.filterMap_cons, hitHigh, hitLow, min_relevance_score])

/-- C4: on empty evidence, `generate_answer` returns the fixed insufficient
information answer with no sources and the LOW label, logs nothing, and makes
no generative-collaborator call. -/
theorem C4_empty_evidence (llm : String → Except String String) (q ip ts : String) :
    generate_answer llm q [] ip ts =
      { result := .ok
          { answer := insufficientMsg, sources := [], confidence := "BAIXA",
            confidence_score := none, documents_used := none,
            warning := some "Resposta baseada em dados insuficientes" },
        audits := [], events := [] } := rfl

/-- C5: on the successful generative path with non-empty evidence, the
reported confidence score is the arithmetic mean of the evidence relevance
scores, and the label is HIGH for mean ≥ 0.9, MEDIUM for 0.75 ≤ mean < 0.9,
and LOW for mean < 0.75, with both boundaries inclusive of the higher
label. -/
theorem C5_confidence_mean (llm : String → Except String String)
    (q ip ts a : String) (docs : List EvidenceItem) (hne : docs ≠ [])
    (hllm : llm (build_prompt (build_context docs) q) = .ok a) :
    ∃ r : AnswerDict, (generate_answer llm q docs ip ts).result = .ok r ∧
      r.confidence_score = some (mean_relevance docs) ∧
      (9 / 10 ≤ mean_relevance docs → r.confidence = "ALTA") ∧
      (3 / 4 ≤ mean_relevance docs → mean_relevance docs < 9 / 10 → r.confidence = "MÉDIA") ∧
      (mean_relevance docs < 3 / 4 → r.confidence = "BAIXA") := by
  cases docs with
  | nil => exact absurd rfl hne
  | cons d ds =>
    simp only [generate_answer, List.isEmpty_cons, Bool.false_eq_true, if_false]
    rw [hllm]
    refine ⟨_, rfl, rfl, ?_, ?_, ?_⟩
    · intro h1
      simp only [if_pos h1]
    · intro h1 h2
      simp only [if_neg (not_le.mpr h2), if_pos h1]
    · intro h1
      simp only [if_neg (not_le.mpr (lt_trans h1 (show (3 : ℚ) / 4 < 9 / 10 by norm_num))),
        if_neg (not_le.mpr h1)]

/-- C5 witness: a single evidence item at exactly 0.9 yields label ALTA, and a
single item at exactly 0.75 yields label MÉDIA (inclusive boundaries). -/
theorem C5_witness :
    (∃ r : AnswerDict,
       (generate_answer llmOkConst "Qual é a política de senhas?" [docHigh] "ip" "t").result
         = .ok r ∧ r.confidence_score = some (mean_relevance [docHigh]) ∧
       r.confidence = "ALTA") ∧
    (∃ r : AnswerDict,
       (generate_answer llmOkConst "Qual é a política de acesso?" [docMed] "ip" "t").result
         = .ok r ∧ r.confidence_score = some (mean_relevance [docMed]) ∧
       r.confidence = "MÉDIA") := by
  constructor
  · obtain ⟨r, h1, h2, h3, -, -⟩ :=
      C5_confidence_mean llmOkConst "Qual é a política de senhas?" "ip" "t"
        "resposta gerada" [docHigh] (List.cons_ne_nil _ _) rfl
    exact ⟨r, h1, h2, h3 (by norm_num [mean_relevance, docHigh])⟩
  · obtain ⟨r, h1, h2, -, h4, -⟩ :=
      C5_confidence_mean llmOkConst "Qual é a política de acesso?" "ip" "t"
        "resposta gerada" [docMed] (List.cons_ne_nil _ _) rfl
    exact ⟨r, h1, h2, h4 (by norm_num [mean_relevance, docMed]) (by norm_num [mean_relevance, docMed])⟩

/-- C9: for any capacity ≥ 1, the admission check is total — it always
returns an allow or deny decision and never reaches the raising
`min([])` case. -/
theorem C9_admission_total (st : RateLimiter) (c : String) (now : ℚ)
    (hN : 0 < st.max_requests) : ((is_allowed st c now).1).isSome = true := by
  unfold is_allowed
  dsimp only
  split
  · next hle =>
    split
    · next hnone =>
      rw [List.min?_eq_none_iff] at hnone
      rw [hnone] at hle
      simp at hle
      omega
    · next m hm => rfl
  · rfl

/-- C9 witness: the fresh 10-per-minute limiter decides the first check. -/
theorem C9_witness :
    0 < limiter10.max_requests ∧ ((is_allowed limiter10 "203.0.113.7" 0).1).isSome = true :=
  ⟨by decide, C9_admission_total limiter10 "203.0.113.7" 0 (by decide)⟩

/-- C6: (i) more than N admission checks within one window on a fresh client
yield exactly N allowed and the rest denied; (ii) the first check for an
unseen client is always allowed; (iii) every denial reports a retry-after
equal to the time until the oldest retained timestamp exits the window, and
that time is non-negative. -/
theorem C6_sliding_window :
    (∀ (st : RateLimiter) (c : String) (ts : List ℚ),
       st.requests c = [] → 0 < st.max_requests → st.max_requests < ts.length →
       ts.Pairwise (fun a b => b - a < st.window) →
       (callSeq st c ts).1.countP isAllowRes = st.max_requests ∧
       (callSeq st c ts).1.countP isDenyRes = ts.length - st.max_requests) ∧
    (∀ (st : RateLimiter) (c : String) (now : ℚ),
       0 < st.max_requests → st.requests c = [] →
       (is_allowed st c now).1 = some (true, 0)) ∧
    (∀ (st : RateLimiter) (c : String) (now r : ℚ),
       (is_allowed st c now).1 = some (false, r) →
       ∃ oldest, ((st.requests c).filter fun t => now - t < st.window).min? = some oldest ∧
         r = oldest + st.window - now ∧ 0 ≤ r) := by
  refine ⟨?_, fun st c now hN hf => first_call_allowed st c now hN hf,
    fun st c now r hd => deny_retry_after st c now r hd⟩
  intro st c ts hf hN hlen hP
  have h := callSeq_counts c ts st hN (by simp [hf]) hP
  rw [hf] at h
  simp only [List.length_nil, Nat.sub_zero] at h
  exact ⟨by rw [h.1]; omega, by rw [h.2]; omega⟩

/-- C6 witness: a fresh capacity-2 limiter admits exactly 2 of 3 checks in one
minute; a fresh client's first check is allowed; a concrete denial reports a
retry-after of 30 seconds, the time until its only timestamp leaves the
window. -/
theorem C6_witness :
    ((callSeq limiter2 "203.0.113.7" [0, 1, 2]).1.countP isAllowRes = 2 ∧
     (callSeq limiter2 "203.0.113.7" [0, 1, 2]).1.countP isDenyRes = 1) ∧
    (is_allowed limiter2 "10.0.0.1" 5).1 = some (true, 0) ∧
    (∃ oldest,
       ((limiterFull.requests "c").filter fun t => (30 : ℚ) - t < limiterFull.window).min?
           = some oldest ∧
       (30 : ℚ) = oldest + limiterFull.window - 30 ∧ (0 : ℚ) ≤ 30) := by
  refine ⟨?_, ?_, ?_⟩
  · have h := C6_sliding_window.1 limiter2 "203.0.113.7" [0, 1, 2] rfl (by decide)
      (by decide) (by norm_num [List.pairwise_cons, limiter2])
    exact ⟨h.1, h.2⟩
  · exact C6_sliding_window.2.1 limiter2 "10.0.0.1" 5 (by decide) rfl
  · refine C6_sliding_window.2.2 limiterFull "c" 30 30 ?_
    norm_num [is_allowed, limiterFull, List.filter_cons, List.filter_nil, updReq]

/-- C8: a request denied by the rate limiter is answered 429, and a request
failing validation is answered 400, in both cases before any collaborator is
invoked — the event trace of embedding/search/generative calls is empty. -/
theorem C8_fail_fast :
    (∀ (st : RateLimiter) (ol : Oracles) (ip : String) (jq : Option String)
       (now r : ℚ) (iso : String),
       (is_allowed st ip now).1 = some (false, r) →
       (ask_compliance st ol ip jq now iso).status = 429 ∧
       (ask_compliance st ol ip jq now iso).events = []) ∧
    (∀ (st : RateLimiter) (ol : Oracles) (ip q : String) (now m : ℚ)
       (iso s msg : String),
       (is_allowed st ip now).1 = some (true, m) →
       validate_question q = (false, s, msg) →
       (ask_compliance st ol ip (some q) now iso).status = 400 ∧
       (ask_compliance st ol ip (some q) now iso).events = []) := by
  constructor
  · intro st ol ip jq now r iso hd
    rcases hstep : is_allowed st ip now with ⟨res, st'⟩
    rw [hstep] at hd
    simp only at hd
    subst hd
    unfold ask_compliance
    rw [hstep]
    exact ⟨rfl, rfl⟩
  · intro st ol ip q now m iso s msg ha hv
    rcases hstep : is_allowed st ip now with ⟨res, st'⟩
    rw [hstep] at ha
    simp only at ha
    subst ha
    unfold ask_compliance
    rw [hstep]
    simp [hv]

/-- C8 witness: a rate-limited concrete request is answered 429 with no
collaborator call, and a too-short question is answered 400 with no
collaborator call. -/
theorem C8_witness :
    ((ask_compliance limiterFull oraclesOk "c" (some "Qual é a política de senhas?")
        30 "t").status = 429 ∧
     (ask_compliance limiterFull oraclesOk "c" (some "Qual é a política de senhas?")
        30 "t").events = []) ∧
    ((ask_compliance limiter10 oraclesOk "203.0.113.7" (some "oi") 0 "t").status = 400 ∧
     (ask_compliance limiter10 oraclesOk "203.0.113.7" (some "oi") 0 "t").events = []) := by
  constructor
  · refine C8_fail_fast.1 limiterFull oraclesOk "c" (some "Qual é a política de senhas?")
      30 30 "t" ?_
    norm_num [is_allowed, limiterFull, List.filter_cons, List.filter_nil, updReq]
  · exact C8_fail_fast.2 limiter10 oraclesOk "203.0.113.7" "oi" 0 0 "t" ""
      "Pergunta muito curta (mínimo 5 caracteres)" rfl (by decide)

set_option maxRecDepth 100000 in
/-- C7 counterexample: an input that contains the denylisted substring
`<script` (also after lower-casing) but whose trimmed length exceeds 1000 is
rejected by the earlier length check with the "too long" reason, not with the
"suspicious content" reason — so containing a denylisted substring does not
yield the suspicious-content failure regardless of surrounding text. -/
theorem C7_counterexample :
    validate_question ("<script" ++ String.mk (List.replicate 1000 'a'))
        = (false, "", "Pergunta muito longa (máximo 1000 caracteres)") ∧
    containsSub "<script".toList
        (pyLower ("<script" ++ String.mk (List.replicate 1000 'a'))).toList = true := by
  constructor
  · decide
  · decide

/-- C7 amended: an input whose trimmed text contains a denylisted substring
case-insensitively is rejected with the "suspicious content" reason provided
its trimmed length does not exceed 1000 (otherwise the earlier "too long"
check fires); the remaining earlier checks can never fire on such inputs. -/
theorem C7_suspicious_rejected (q : String)
    (hsusp : hasSuspicious (pyStrip q) = true)
    (hlen : (pyStrip q).length ≤ 1000) :
    validate_question q = (false, "", "Pergunta contém conteúdo suspeito") := by
  have hb := suspicious_bounds (pyStrip q) hsusp
  have hq : q ≠ "" := by
    intro h0
    rw [h0] at hsusp
    exact absurd hsusp (by decide)
  have hb1 := hb.1
  have hb2 := hb.2
  unfold validate_question
  rw [if_neg hq]
  dsimp only
  rw [if_neg (by omega), if_neg (by omega), if_neg (by omega), if_pos hsusp]

/-- C7 amended witness: a short question hiding an upper-case `EVAL(` marker
is rejected as suspicious content (case-insensitive match). -/
theorem C7_witness :
    validate_question "Por favor execute EVAL(dados) agora"
      = (false, "", "Pergunta contém conteúdo suspeito") :=
  C7_suspicious_rejected "Por favor execute EVAL(dados) agora" (by decide) (by decide)

/-- C10: validation is idempotent on its own output — a question accepted and
sanitized to `s` revalidates successfully to the same `s`. -/
theorem C10_validate_idempotent (q s : String)
    (h : validate_question q = (true, s, "")) :
    validate_question s = (true, s, "") := by
  unfold validate_question at h
  by_cases hq : q = ""
  · rw [if_pos hq] at h
    simp at h
  · rw [if_neg hq] at h
    dsimp only at h
    by_cases h5 : (pyStrip q).length < 5
    · rw [if_pos h5] at h
      simp at h
    · rw [if_neg h5] at h
      by_cases h1000 : 1000 < (pyStrip q).length
      · rw [if_pos h1000] at h
        simp at h
      · rw [if_neg h1000] at h
        by_cases h3 : (pyStrip q).toList.countP (fun c => c.isAlphanum) < 3
        · rw [if_pos h3] at h
          simp at h
        · rw [if_neg h3] at h
          by_cases hsus : hasSuspicious (pyStrip q) = true
          · rw [if_pos hsus] at h
            simp at h
          · rw [if_neg hsus] at h
            have hqs : pyStrip q = s := by
              have := congrArg (fun x => x.2.1) h
              simpa using this
            subst hqs
            have hne : pyStrip q ≠ "" := by
              intro h0
              apply h5
              rw [h0]
              decide
            unfold validate_question
            rw [if_neg hne]
            dsimp only
            rw [pyStrip_idem]
            rw [if_neg h5, if_neg h1000, if_neg h3, if_neg hsus]

/-- C10 witness: a concrete padded question validates to its trimmed form,
which revalidates unchanged. -/
theorem C10_witness :
    validate_question "Qual é a política de senhas?"
      = (true, "Qual é a política de senhas?", "") :=
  C10_validate_idempotent "  Qual é a política de senhas?  "
    "Qual é a política de senhas?" (by decide)

/-- C1 counterexample: with one (highest-ranked) evidence item present and a
generative collaborator that raises, `generate_answer` does not return any
Answer — in particular no CONTINGENCY answer quoting the top evidence item —
but re-raises the collaborator's error. -/
theorem C1_counterexample :
    (generate_answer llmFailConst "Qual é a política de senhas?" [docHigh]
        "203.0.113.7" "2024-05-01T10:00:00").result = Except.error "quota" := rfl

/-- C1 amended: on generative-collaborator failure with non-empty evidence,
`generate_answer` propagates the error (and logs no audit entry), and the
orchestrator maps the propagated error to a 500 response rather than building
a CONTINGENCY answer. -/
theorem C1_generation_failure_propagates :
    (∀ (llm : String → Except String String) (q ip ts e : String)
       (docs : List EvidenceItem), docs ≠ [] →
       llm (build_prompt (build_context docs) q) = .error e →
       (generate_answer llm q docs ip ts).result = .error e ∧
       (generate_answer llm q docs ip ts).audits = []) ∧
    (∀ (st : RateLimiter) (ol : Oracles) (ip q sq iso e : String) (now m : ℚ)
       (vec : List ℚ) (rs : List SearchResult),
       (is_allowed st ip now).1 = some (true, m) →
       validate_question q = (true, sq, "") →
       ol.embed sq = .ok vec →
       ol.searchQ sq vec = .ok rs →
       filter_relevant rs ≠ [] →
       ol.llm (build_prompt (build_context (filter_relevant rs)) sq) = .error e →
       (ask_compliance st ol ip (some q) now iso).status = 500) := by
  have gen : ∀ (llm : String → Except String String) (q ip ts e : String)
      (docs : List EvidenceItem), docs ≠ [] →
      llm (build_prompt (build_context docs) q) = .error e →
      (generate_answer llm q docs ip ts).result = .error e ∧
      (generate_answer llm q docs ip ts).audits = [] := by
    intro llm q ip ts e docs hne hllm
    cases docs with
    | nil => exact absurd rfl hne
    | cons d ds =>
      simp only [generate_answer, List.isEmpty_cons, Bool.false_eq_true, if_false]
      rw [hllm]
      exact ⟨rfl, rfl⟩
  refine ⟨gen, ?_⟩
  intro st ol ip q sq iso e now m vec rs hallow hvalid hembed hsearch hne hllm
  unfold ask_compliance
  rcases hstep : is_allowed st ip now with ⟨res, st'⟩
  rw [hstep] at hallow
  simp only at hallow
  subst hallow
  simp only [hvalid]
  have hsd : search_documents ol sq =
      (.ok (filter_relevant rs), [.embedCall, .searchCall]) := by
    unfold search_documents
    simp only [hembed, hsearch]
  rw [hsd]
  have hg := (gen ol.llm sq ip iso e (filter_relevant rs) hne hllm).1
  simp only [hg]

/-- C1 amended witness: a concrete request whose search succeeds with an
above-threshold hit and whose generative collaborator raises is answered with
status 500, and the error surfaces unchanged from `generate_answer`. -/
theorem C1_witness :
    (generate_answer llmFailConst "Qual é a política de acesso?" [docHigh] "ip" "t").result
        = Except.error "quota" ∧
    (ask_compliance limiter10 oraclesFailGen "203.0.113.7"
        (some "Qual é a política de senhas?") 0 "2024-05-01T10:00:00").status = 500 := by
  constructor
  · exact (C1_generation_failure_propagates.1 llmFailConst "Qual é a política de acesso?"
      "ip" "t" "quota" [docHigh] (List.cons_ne_nil _ _) rfl).1
  · refine C1_generation_failure_propagates.2 limiter10 oraclesFailGen "203.0.113.7"
      "Qual é a política de senhas?" "Qual é a política de senhas?" "2024-05-01T10:00:00"
      "quota" 0 0 [] [hitHigh] rfl (by decide) rfl rfl ?_ ?_
    · norm_num [filter_relevant, List.filterMap_cons, hitHigh, min_relevance_score]
    · rfl

/-- C2 counterexample: the empty-evidence branch produces an Answer (the
request is answered with the fixed insufficient-information text) yet logs no
audit record, so not every answered request yields exactly one audit
record. -/
theorem C2_counterexample :
    (generate_answer llmOkConst "Pergunta de auditoria válida" [] "ip" "t").audits = [] ∧
    (generate_answer llmOkConst "Pergunta de auditoria válida" [] "ip" "t").result =
      Except.ok
        { answer := insufficientMsg, sources := [], confidence := "BAIXA",
          confidence_score := none, documents_used := none,
          warning := some "Resposta baseada em dados insuficientes" } :=
  ⟨rfl, rfl⟩

/-- C2 amended: on the successful generative path (the only branch that
audits), exactly one audit record is logged; its `question_hash` is the
16-character prefix of the SHA-256 hex digest of the question — a fixed
length independent of the question — and the audit record carries no raw
question field. -/
theorem C2_audit_hash (llm : String → Except String String)
    (q ip iso a : String) (docs : List EvidenceItem) (hne : docs ≠ [])
    (hllm : llm (build_prompt (build_context docs) q) = .ok a) :
    (generate_answer llm q docs ip iso).audits =
      [log_audit ip q (docs.map fun doc => doc.source) (mean_relevance docs) iso] ∧
    (log_audit ip q (docs.map fun doc => doc.source) (mean_relevance docs) iso).question_hash
      = String.mk ((sha256hexChars q).take 16) ∧
    (log_audit ip q (docs.map fun doc => doc.source) (mean_relevance docs) iso).question_hash.length
      = 16 := by
  refine ⟨?_, rfl, ?_⟩
  · cases docs with
    | nil => exact absurd rfl hne
    | cons d ds =>
      simp only [generate_answer, List.isEmpty_cons, Bool.false_eq_true, if_false]
      rw [hllm]
  · show ((sha256hexChars q).take 16).length = 16
    rw [List.length_take, sha256hexChars_length]
    exact Nat.min_eq_left (by norm_num)

/-- C2 amended witness: a concrete successful generation logs exactly one
audit record whose question hash has 16 characters. -/
theorem C2_witness :
    (generate_answer llmOkConst "Qual é a política de senhas?" [docHigh] "ip" "t").audits.length
        = 1 ∧
    (log_audit "ip" "Qual é a política de senhas?" ([docHigh].map fun doc => doc.source)
        (mean_relevance [docHigh]) "t").question_hash.length = 16 := by
  obtain ⟨h1, -, h3⟩ :=
    C2_audit_hash llmOkConst "Qual é a política de senhas?" "ip" "t" "resposta gerada"
      [docHigh] (List.cons_ne_nil _ _) rfl
  exact ⟨by rw [h1]; rfl, h3⟩

end RagApp
